import Mathlib

/-!
Verification development for the IDR intelligence platform dashboard.

The repository holds several revisions of a Streamlit dashboard over
Independent Dispute Resolution (IDR) billing records.  The logic verified
here is:

* `calculate_fraud_flags` (file-backed revision, `idr_streamlit_app.py`,
  lines 231-287): a rule list over one provider's dispute rows, returning
  a list of flag labels and a risk score `min(100, 15 * number_of_flags)`.
* the per-rule point accumulation of the fraud-alerts tab in the
  summary-table revisions (`part_000`, lines 556-592 and 875-881), which
  scores a precomputed provider summary row.
* the paginated query functions `query_by_provider` / `query_by_state` /
  `query_by_specialty` (`part_000`, lines 128-198): fixed windows of 1000
  rows, offset advanced by the window size, stop on an empty or short page.
* the summary loaders (`part_000`, lines 55-125), which catch remote
  failures and return an empty result, in contrast with the paginated
  query functions, which have no exception handling at all.

Python floats for rates and averages are modelled with `ℚ`; the values in
play are ratios of small integers, where float and rational comparison
agree.  A pandas `NaN` produced by an all-missing column or a `0/0` is
modelled with `Option.none`.  A raised exception is `Option.none` at the
level of a whole call (`calculateFraudFlags`), or `Except.error` for the
remote-call model.
-/

namespace IDR

/-- One row of the `idr_disputes` table, restricted to the columns the
file-backed revision reads.  `offerPctQPA` is `none` for a `NaN` cell. -/
structure DisputeRow where
  providerName : String
  offerPctQPA : Option ℚ
  disputeType : String
  quarter : String
  location : String
  payer : String
  outcome : String
deriving DecidableEq

/-- A provider's row-set together with which columns exist in the frame.
A pandas DataFrame may lack any of the columns the scorer consults; each
rule of `calculate_fraud_flags` is guarded by a column-presence test. -/
structure ProviderDF where
  rows : List DisputeRow
  hasProviderCol : Bool
  hasOfferCol : Bool
  hasTypeCol : Bool
  hasQuarterCol : Bool
  hasLocationCol : Bool
  hasPayerCol : Bool
  hasOutcomeCol : Bool
deriving DecidableEq

/-- Flag 1 condition: `total_disputes > 1000` (line 238). -/
def highVolumeFires (df : ProviderDF) : Bool :=
  decide (1000 < df.rows.length)

/-- The non-`NaN` values of the offer column. -/
def offerValues (df : ProviderDF) : List ℚ :=
  df.rows.filterMap (fun r => r.offerPctQPA)

/-- `provider_df['Provider/Facility Offer as % of QPA'].mean()`: pandas
skips `NaN` cells; an empty or all-`NaN` column yields `NaN` (`none`). -/
def avgOffer (df : ProviderDF) : Option ℚ :=
  if (offerValues df).isEmpty then none
  else some ((offerValues df).sum / (offerValues df).length)

/-- Flag 2 condition: offer column present and `avg_offer > 500`
(lines 242-245); a `NaN` mean compares false. -/
def extremePricingFires (df : ProviderDF) : Bool :=
  df.hasOfferCol &&
    match avgOffer df with
    | some a => decide (500 < a)
    | none => false

/-- `(provider_df['Type of Dispute'] == 'Batched').sum() / len(provider_df)
* 100` (line 249); on an empty frame the numpy division gives `NaN`. -/
def batchRate (df : ProviderDF) : Option ℚ :=
  if df.rows.isEmpty then none
  else some ((df.rows.countP (fun r => r.disputeType == "Batched") : ℚ)
              / df.rows.length * 100)

/-- Flag 3 condition: type column present and `batch_rate > 90`
(lines 248-251). -/
def batchAbuserFires (df : ProviderDF) : Bool :=
  df.hasTypeCol &&
    match batchRate df with
    | some r => decide (90 < r)
    | none => false

/-- The distinct quarters of the row-set, sorted ascending: the index of
`provider_df['quarter'].value_counts().sort_index()` (line 255). -/
def quarterKeys (df : ProviderDF) : List String :=
  ((df.rows.map (fun r => r.quarter)).dedup).mergeSort (fun a b => decide (a ≤ b))

/-- `quarterly_counts[q]`: how many rows fall in quarter `q`. -/
def quarterCount (df : ProviderDF) (q : String) : Nat :=
  df.rows.countP (fun r => r.quarter == q)

/-- The quarter-over-quarter growth percentages (lines 257-264): for each
consecutive pair of sorted quarters, `(curr - prev) / prev * 100`,
guarded by `prev_count > 0` as in the source. -/
def growthRates (df : ProviderDF) : List ℚ :=
  ((quarterKeys df).zip (quarterKeys df).tail).filterMap (fun pq =>
    let prev := quarterCount df pq.1
    let curr := quarterCount df pq.2
    if 0 < prev then some (((curr : ℚ) - prev) / prev * 100) else none)

/-- Flag 4 condition (lines 254-267): quarter column present, at least two
distinct quarters, and `max(growth_rates) > 200` — equivalently some
growth rate exceeds 200, and the list is nonempty as the source tests. -/
def volumeSpikeFires (df : ProviderDF) : Bool :=
  df.hasQuarterCol && decide (2 ≤ (quarterKeys df).length) &&
    !(growthRates df).isEmpty && (growthRates df).any (fun g => decide (200 < g))

/-- Flag 5 condition: `provider_df['Location of Service'].nunique() > 10`
(lines 270-272). -/
def multiStateFires (df : ProviderDF) : Bool :=
  df.hasLocationCol && decide (10 < (df.rows.map (fun r => r.location)).dedup.length)

/-- How many rows name payer `p`. -/
def payerCount (df : ProviderDF) (p : String) : Nat :=
  df.rows.countP (fun r => r.payer == p)

/-- `payer_counts.iloc[0]` of `value_counts()` sorted descending: the
largest per-payer count. -/
def topPayerCount (df : ProviderDF) : Nat :=
  (((df.rows.map (fun r => r.payer)).dedup).map (payerCount df)).foldr max 0

/-- Flag 6 condition (lines 276-281): payer column present, `value_counts`
nonempty (some row exists), and `top_payer_pct > 80` where
`top_payer_pct = payer_counts.iloc[0] / len(provider_df) * 100`. -/
def payerTargetingFires (df : ProviderDF) : Bool :=
  df.hasPayerCol && !df.rows.isEmpty &&
    decide (80 < (topPayerCount df : ℚ) / df.rows.length * 100)

/-- The flag labels appended in source order (lines 237-281); the second
component of each source pair is a formatted explanation string, which is
presentational and carries no logic. -/
def fraudFlags (df : ProviderDF) : List String :=
  (if highVolumeFires df then ["🚩 HIGH VOLUME"] else []) ++
  (if extremePricingFires df then ["🚩 EXTREME PRICING"] else []) ++
  (if batchAbuserFires df then ["🚩 BATCH ABUSER"] else []) ++
  (if volumeSpikeFires df then ["🚩 VOLUME SPIKE"] else []) ++
  (if multiStateFires df then ["🚩 MULTI-STATE OPERATION"] else []) ++
  (if payerTargetingFires df then ["🚩 PAYER TARGETING"] else [])

/-- `calculate_fraud_flags` (lines 231-287).  Before any rule runs, the
source evaluates
`provider_df['Provider/Facility Name'].iloc[0]` when that column is
present, which raises `IndexError` on an empty frame: that raise is the
`none` case.  Otherwise the result is the flag list and
`risk_score = min(100, len(flags) * 15)` (line 284). -/
def calculateFraudFlags (df : ProviderDF) : Option (List String × Nat) :=
  if df.hasProviderCol && df.rows.isEmpty then none
  else some (fraudFlags df, min 100 ((fraudFlags df).length * 15))

/-- Win rate of a provider row-set as the file-backed revision computes it
for display (lines 317-320): share of rows decided in favor of the
provider; `none` when the outcome column is absent or the frame empty. -/
def winRate (df : ProviderDF) : Option ℚ :=
  if df.hasOutcomeCol && !df.rows.isEmpty then
    some ((df.rows.countP
            (fun r => r.outcome == "In Favor of Provider/Facility/AA Provider") : ℚ)
          / df.rows.length * 100)
  else none

/-- One row of the `summary_providers` table, restricted to the fields the
fraud-alerts tab reads (`part_000`, lines 556-592). -/
structure SummaryRow where
  provider_name : String
  total_disputes : Nat
  batch_rate : ℚ
  win_rate : ℚ
  states_count : Nat
deriving DecidableEq

/-- The per-rule accumulation of the fraud-alerts tab, revision 2
(`part_000`, lines 560-584): each rule appends its label and adds its
points; the volume rules are an if/elif pair. -/
def summaryFraudEval (row : SummaryRow) : List String × Nat :=
  let volume : List String × Nat :=
    if 10000 < row.total_disputes then (["🚩 EXTREME VOLUME"], 30)
    else if 1000 < row.total_disputes then (["🚩 HIGH VOLUME"], 15)
    else ([], 0)
  let batch : List String × Nat :=
    if 90 < row.batch_rate then (["🚩 BATCH ABUSER"], 20) else ([], 0)
  let states : List String × Nat :=
    if 10 < row.states_count then (["🚩 MULTI-STATE"], 15) else ([], 0)
  let win : List String × Nat :=
    if 95 < row.win_rate then (["🚩 ABNORMAL WIN RATE"], 10) else ([], 0)
  (volume.1 ++ batch.1 ++ states.1 ++ win.1,
   volume.2 + batch.2 + states.2 + win.2)

/-- The same accumulation in revision 3 (`part_000`, lines 873-881), whose
labels lack the flag emoji but whose thresholds and points are identical. -/
def summaryFraudEvalV3 (row : SummaryRow) : List String × Nat :=
  let volume : List String × Nat :=
    if 10000 < row.total_disputes then (["EXTREME VOLUME"], 30)
    else if 1000 < row.total_disputes then (["HIGH VOLUME"], 15)
    else ([], 0)
  let batch : List String × Nat :=
    if 90 < row.batch_rate then (["BATCH ABUSER"], 20) else ([], 0)
  let states : List String × Nat :=
    if 10 < row.states_count then (["MULTI-STATE"], 15) else ([], 0)
  let win : List String × Nat :=
    if 95 < row.win_rate then (["ABNORMAL WIN RATE"], 10) else ([], 0)
  (volume.1 ++ batch.1 ++ states.1 ++ win.1,
   volume.2 + batch.2 + states.2 + win.2)

/-- The page a Supabase `.range(offset, offset + 999)` call returns over a
fixed filtered result set: up to 1000 rows starting at `offset`
(inclusive bounds, hence `batch_size - 1`). -/
def pageOf (matching : List α) (offset : Nat) : List α :=
  (matching.drop offset).take 1000

/-- The accumulation loop shared by `query_by_provider`,
`query_by_state` and `query_by_specialty` (`part_000`, lines 134-150):
request the window at `offset`; an empty page stops with nothing added, a
short page stops after being appended, a full page is appended and the
offset advances by the batch size of 1000. -/
def fetchAll (matching : List α) (offset : Nat) : List α :=
  if (pageOf matching offset).isEmpty then []
  else if (pageOf matching offset).length < 1000 then pageOf matching offset
  else pageOf matching offset ++ fetchAll matching (offset + 1000)
termination_by matching.length - offset
decreasing_by
  simp only [pageOf, List.isEmpty_iff, List.length_take, List.length_drop] at *
  omega

/-- A dispute record as the remote `idr_disputes` table exposes it to the
three on-demand query functions, restricted to the filtered columns. -/
structure DisputeRec where
  provider_name : String
  state : String
  specialty : String
deriving DecidableEq

/-- `query_by_provider` (lines 128-150): rows whose `provider_name`
equals the argument, fetched in pages of 1000 from offset 0. -/
def query_by_provider (table : List DisputeRec) (name : String) : List DisputeRec :=
  fetchAll (table.filter (fun r => r.provider_name == name)) 0

/-- `query_by_state` (lines 152-174). -/
def query_by_state (table : List DisputeRec) (s : String) : List DisputeRec :=
  fetchAll (table.filter (fun r => r.state == s)) 0

/-- `query_by_specialty` (lines 176-198). -/
def query_by_specialty (table : List DisputeRec) (s : String) : List DisputeRec :=
  fetchAll (table.filter (fun r => r.specialty == s)) 0

/-- The same loop instrumented with the list of offsets it requests, one
entry per round trip. -/
def fetchTrace (matching : List α) (offset : Nat) : List α × List Nat :=
  if (pageOf matching offset).isEmpty then ([], [offset])
  else if (pageOf matching offset).length < 1000 then (pageOf matching offset, [offset])
  else
    (pageOf matching offset ++ (fetchTrace matching (offset + 1000)).1,
     offset :: (fetchTrace matching (offset + 1000)).2)
termination_by matching.length - offset
decreasing_by
  all_goals
    simp only [pageOf, List.isEmpty_iff, List.length_take, List.length_drop] at *
    omega

/-- The loop against an arbitrary response sequence `resp` (the rows the
remote returns for each requested offset), with explicit fuel: `none`
means the loop was still running after `fuel` round trips.  This captures
termination claims without assuming the remote serves a fixed table. -/
def fetchFuel (resp : Nat → List α) : Nat → Nat → List α → Option (List α)
  | 0, _, _ => none
  | fuel + 1, offset, acc =>
    let page := resp offset
    if page.isEmpty then some acc
    else if page.length < 1000 then some (acc ++ page)
    else fetchFuel resp fuel (offset + 1000) (acc ++ page)

/-- A remote-call failure (a raised exception from `.execute()`). -/
inductive RemoteError
  | network
  | timeout
deriving DecidableEq

/-- A summary loader such as `load_provider_summaries` (`part_000`,
lines 66-76), generic in the row type: no client gives an empty frame;
the `try` block converts any raise into an empty frame; otherwise the
response rows are returned. -/
def loadSummaries (client : Option Unit)
    (result : Except RemoteError (List β)) : List β :=
  match client with
  | none => []
  | some _ =>
    match result with
    | .error _ => []
    | .ok d => d

/-- `load_overview` (lines 55-64): `response.data[0] if response.data
else None`, with failures caught to `None`. -/
def load_overview (client : Option Unit)
    (result : Except RemoteError (List β)) : Option β :=
  match client with
  | none => none
  | some _ =>
    match result with
    | .error _ => none
    | .ok d => d.head?

/-- The paginated loop when each remote call may raise: the body of
`query_by_provider` has no `try`, so an `error` response escapes the
function at once (`some (.error e)`), while normal pages follow the
accumulation of `fetchAll`; `none` again means fuel ran out. -/
def queryLoopE (resp : Nat → Except RemoteError (List α)) :
    Nat → Nat → List α → Option (Except RemoteError (List α))
  | 0, _, _ => none
  | fuel + 1, offset, acc =>
    match resp offset with
    | .error e => some (.error e)
    | .ok page =>
      if page.isEmpty then some (.ok acc)
      else if page.length < 1000 then some (.ok (acc ++ page))
      else queryLoopE resp fuel (offset + 1000) (acc ++ page)

/-! ### Helper lemmas about the file-backed scorer -/

/-- Membership in one guarded singleton block of the flag list. -/
lemma mem_flagIte (b : Bool) (x a : String) (l : List String) :
    (a ∈ (if b then [x] else []) ++ l) ↔ ((b = true ∧ a = x) ∨ a ∈ l) := by
  cases b <;> simp

/-- Each guarded singleton block has at most one element. -/
lemma length_flagIte_le (b : Bool) (x : String) :
    (if b then [x] else []).length ≤ 1 := by
  cases b <;> simp

lemma mem_fraudFlags_highVolume (df : ProviderDF) :
    "🚩 HIGH VOLUME" ∈ fraudFlags df ↔ highVolumeFires df = true := by
  simp [fraudFlags, mem_flagIte]

lemma mem_fraudFlags_extremePricing (df : ProviderDF) :
    "🚩 EXTREME PRICING" ∈ fraudFlags df ↔ extremePricingFires df = true := by
  simp [fraudFlags, mem_flagIte]

lemma mem_fraudFlags_batchAbuser (df : ProviderDF) :
    "🚩 BATCH ABUSER" ∈ fraudFlags df ↔ batchAbuserFires df = true := by
  simp [fraudFlags, mem_flagIte]

lemma mem_fraudFlags_volumeSpike (df : ProviderDF) :
    "🚩 VOLUME SPIKE" ∈ fraudFlags df ↔ volumeSpikeFires df = true := by
  simp [fraudFlags, mem_flagIte]

lemma mem_fraudFlags_multiState (df : ProviderDF) :
    "🚩 MULTI-STATE OPERATION" ∈ fraudFlags df ↔ multiStateFires df = true := by
  simp [fraudFlags, mem_flagIte]

lemma mem_fraudFlags_payerTargeting (df : ProviderDF) :
    "🚩 PAYER TARGETING" ∈ fraudFlags df ↔ payerTargetingFires df = true := by
  simp [fraudFlags, mem_flagIte]

/-- Only six rules exist, so at most six flags. -/
lemma fraudFlags_length_le (df : ProviderDF) : (fraudFlags df).length ≤ 6 := by
  have h1 := length_flagIte_le (highVolumeFires df) "🚩 HIGH VOLUME"
  have h2 := length_flagIte_le (extremePricingFires df) "🚩 EXTREME PRICING"
  have h3 := length_flagIte_le (batchAbuserFires df) "🚩 BATCH ABUSER"
  have h4 := length_flagIte_le (volumeSpikeFires df) "🚩 VOLUME SPIKE"
  have h5 := length_flagIte_le (multiStateFires df) "🚩 MULTI-STATE OPERATION"
  have h6 := length_flagIte_le (payerTargetingFires df) "🚩 PAYER TARGETING"
  simp only [fraudFlags, List.length_append]
  omega

/-- The cap never binds: six rules at 15 points stay below 100. -/
lemma calculateFraudFlags_score (df : ProviderDF) (r : List String × Nat)
    (h : calculateFraudFlags df = some r) :
    r.1 = fraudFlags df ∧ r.2 = (fraudFlags df).length * 15 := by
  have hlen := fraudFlags_length_le df
  unfold calculateFraudFlags at h
  split at h
  · exact absurd h (by simp)
  · have : min 100 ((fraudFlags df).length * 15) = (fraudFlags df).length * 15 := by
      omega
    rw [this] at h
    cases h.symm
    exact ⟨rfl, rfl⟩

/-! ### Helper lemmas about the summary-table scorer -/

/-- Closed form of the summary risk score: each rule contributes its
points independently. -/
lemma summaryFraudEval_snd (row : SummaryRow) :
    (summaryFraudEval row).2 =
      (if 10000 < row.total_disputes then 30
       else if 1000 < row.total_disputes then 15 else 0) +
      (if 90 < row.batch_rate then 20 else 0) +
      (if 10 < row.states_count then 15 else 0) +
      (if 95 < row.win_rate then 10 else 0) := by
  simp only [summaryFraudEval]
  split_ifs <;> norm_num

lemma mem_summaryFraudEval_extremeVolume (row : SummaryRow) :
    "🚩 EXTREME VOLUME" ∈ (summaryFraudEval row).1 ↔ 10000 < row.total_disputes := by
  simp only [summaryFraudEval]
  split_ifs <;> simp_all

lemma mem_summaryFraudEval_highVolume (row : SummaryRow) :
    "🚩 HIGH VOLUME" ∈ (summaryFraudEval row).1 ↔
      (1000 < row.total_disputes ∧ ¬ 10000 < row.total_disputes) := by
  simp only [summaryFraudEval]
  split_ifs <;> simp_all

lemma mem_summaryFraudEval_batchAbuser (row : SummaryRow) :
    "🚩 BATCH ABUSER" ∈ (summaryFraudEval row).1 ↔ 90 < row.batch_rate := by
  simp only [summaryFraudEval]
  split_ifs <;> simp_all

lemma mem_summaryFraudEval_abnormalWin (row : SummaryRow) :
    "🚩 ABNORMAL WIN RATE" ∈ (summaryFraudEval row).1 ↔ 95 < row.win_rate := by
  simp only [summaryFraudEval]
  split_ifs <;> simp_all

lemma mem_summaryFraudEvalV3_extremeVolume (row : SummaryRow) :
    "EXTREME VOLUME" ∈ (summaryFraudEvalV3 row).1 ↔ 10000 < row.total_disputes := by
  simp only [summaryFraudEvalV3]
  split_ifs <;> simp_all

lemma mem_summaryFraudEvalV3_highVolume (row : SummaryRow) :
    "HIGH VOLUME" ∈ (summaryFraudEvalV3 row).1 ↔
      (1000 < row.total_disputes ∧ ¬ 10000 < row.total_disputes) := by
  simp only [summaryFraudEvalV3]
  split_ifs <;> simp_all

/-! ### Helper lemmas about the paginated fetch -/

/-- The pages concatenate back to the whole filtered result from the
current offset on. -/
lemma fetchAll_eq_drop (matching : List α) (offset : Nat) :
    fetchAll matching offset = matching.drop offset := by
  induction offset using fetchAll.induct matching with
  | case1 o hempty =>
    rw [fetchAll, if_pos hempty]
    simp only [pageOf, List.isEmpty_iff, List.take_eq_nil_iff] at hempty
    rcases hempty with h | h
    · omega
    · exact h.symm
  | case2 o hempty hshort =>
    rw [fetchAll, if_neg hempty, if_pos hshort]
    simp only [pageOf, List.length_take, List.length_drop] at hshort ⊢
    exact List.take_of_length_le (by simp only [List.length_drop]; omega)
  | case3 o hempty hshort ih =>
    rw [fetchAll, if_neg hempty, if_neg hshort, ih]
    simp only [pageOf]
    rw [show matching.drop (o + 1000) = (matching.drop o).drop 1000 by
      rw [List.drop_drop]]
    exact List.take_append_drop 1000 (matching.drop o)

/-- The instrumented loop accumulates the same rows. -/
lemma fetchTrace_fst (matching : List α) (offset : Nat) :
    (fetchTrace matching offset).1 = matching.drop offset := by
  induction offset using fetchTrace.induct matching with
  | case1 o hempty =>
    rw [fetchTrace, if_pos hempty]
    simp only [pageOf, List.isEmpty_iff, List.take_eq_nil_iff] at hempty
    rcases hempty with h | h
    · omega
    · exact h.symm
  | case2 o hempty hshort =>
    rw [fetchTrace, if_neg hempty, if_pos hshort]
    simp only [pageOf]
    exact List.take_of_length_le (by
      simp only [pageOf, List.length_take, List.length_drop] at hshort
      simp only [List.length_drop]
      omega)
  | case3 o hempty hshort ih =>
    rw [fetchTrace, if_neg hempty, if_neg hshort]
    simp only [pageOf] at ih ⊢
    rw [ih, show matching.drop (o + 1000) = (matching.drop o).drop 1000 by
      rw [List.drop_drop]]
    exact List.take_append_drop 1000 (matching.drop o)

/-- The loop requests the offsets `offset, offset + 1000, offset + 2000,
…`, one per round trip, and makes exactly
`(remaining rows) / 1000 + 1` round trips. -/
lemma fetchTrace_snd (matching : List α) (offset : Nat) :
    (fetchTrace matching offset).2 =
      (List.range ((matching.length - offset) / 1000 + 1)).map
        (fun i => offset + 1000 * i) := by
  induction offset using fetchTrace.induct matching with
  | case1 o hempty =>
    rw [fetchTrace, if_pos hempty]
    simp only [pageOf, List.isEmpty_iff, List.take_eq_nil_iff] at hempty
    have hlen : matching.length - o = 0 := by
      rcases hempty with h | h
      · omega
      · have := congrArg List.length h
        simp only [List.length_drop, List.length_nil] at this
        omega
    rw [hlen]
    simp [show List.range 1 = [0] by decide]
  | case2 o hempty hshort =>
    rw [fetchTrace, if_neg hempty, if_pos hshort]
    simp only [pageOf, List.length_take, List.length_drop] at hshort
    have hdiv : (matching.length - o) / 1000 = 0 := by omega
    rw [hdiv]
    simp [show List.range 1 = [0] by decide]
  | case3 o hempty hshort ih =>
    rw [fetchTrace, if_neg hempty, if_neg hshort]
    simp only [pageOf, List.length_take, List.length_drop] at hshort
    have hge : 1000 ≤ matching.length - o := by omega
    have hdiv : (matching.length - (o + 1000)) / 1000 + 1
        = (matching.length - o) / 1000 := by omega
    simp only [ih, hdiv]
    rw [List.range_succ_eq_map, List.map_cons, List.map_map]
    have hhead : o + 1000 * 0 = o := by ring
    rw [hhead]
    congr 1
    refine (List.map_congr_left fun i _ => ?_).symm
    simp only [Function.comp_apply, Nat.succ_eq_add_one]
    ring

/-- Against an arbitrary response sequence, once the page at the k-th
requested offset is short or empty, `k + 1` round trips of fuel complete
the loop. -/
lemma fetchFuel_isSome (resp : Nat → List α) :
    ∀ (k offset : Nat) (acc : List α),
      (resp (offset + 1000 * k)).length < 1000 →
      (fetchFuel resp (k + 1) offset acc).isSome = true := by
  intro k
  induction k with
  | zero =>
    intro offset acc hshort
    simp only [Nat.mul_zero, Nat.add_zero] at hshort
    rw [fetchFuel]
    by_cases hempty : (resp offset).isEmpty
    · rw [if_pos hempty]; rfl
    · rw [if_neg hempty, if_pos hshort]; rfl
  | succ k ih =>
    intro offset acc hshort
    rw [fetchFuel]
    by_cases hempty : (resp offset).isEmpty
    · rw [if_pos hempty]; rfl
    · rw [if_neg hempty]
      by_cases hlt : (resp offset).length < 1000
      · rw [if_pos hlt]; rfl
      · rw [if_neg hlt]
        refine ih (offset + 1000) (acc ++ resp offset) ?_
        rw [show offset + 1000 + 1000 * k = offset + 1000 * (k + 1) by ring]
        exact hshort

/-! ### Concrete inputs used by counterexamples and witnesses -/

/-- Sorting does not change how many distinct quarters there are. -/
lemma quarterKeys_length (df : ProviderDF) :
    (quarterKeys df).length = ((df.rows.map (fun r => r.quarter)).dedup).length := by
  unfold quarterKeys
  exact List.length_mergeSort _

lemma countP_replicate (p : α → Bool) (n : Nat) (a : α) :
    (List.replicate n a).countP p = if p a then n else 0 := by
  induction n with
  | zero => simp
  | succ n ih => simp [List.replicate_succ, List.countP_cons, ih]; split_ifs <;> omega

/-- A dispute row that fires no rule: an unbatched filing, lost, with a
modest offer. -/
def r0 : DisputeRow :=
  ⟨"Prov A", some 100, "Single", "2023-Q4", "NY", "Payer A", "In Favor of Health Plan"⟩

/-- A batched variant of `r0`. -/
def rB : DisputeRow :=
  ⟨"Prov A", some 100, "Batched", "2023-Q4", "NY", "Payer A", "In Favor of Health Plan"⟩

/-- A row the provider won, with no offer value recorded. -/
def rWin : DisputeRow :=
  ⟨"Prov A", some 100, "Single", "2023-Q4", "NY", "Payer A",
   "In Favor of Provider/Facility/AA Provider"⟩

/-- A provider row-set of 10001 identical rows presented without the
optional columns: only the volume rule can examine it.  Its win rate is
0 and no rule besides high volume fires. -/
def df10001 : ProviderDF :=
  ⟨List.replicate 10001 r0, false, false, false, false, false, false, true⟩

lemma highVolumeFires_df10001 : highVolumeFires df10001 = true := by
  unfold highVolumeFires
  rw [show df10001.rows = List.replicate 10001 r0 from rfl, List.length_replicate]
  decide

lemma fraudFlags_df10001 : fraudFlags df10001 = ["🚩 HIGH VOLUME"] := by
  have h2 : extremePricingFires df10001 = false := rfl
  have h3 : batchAbuserFires df10001 = false := rfl
  have h4 : volumeSpikeFires df10001 = false := rfl
  have h5 : multiStateFires df10001 = false := rfl
  have h6 : payerTargetingFires df10001 = false := rfl
  simp only [fraudFlags, highVolumeFires_df10001, h2, h3, h4, h5, h6]
  simp

lemma calculateFraudFlags_df10001 :
    calculateFraudFlags df10001 = some (["🚩 HIGH VOLUME"], 15) := by
  have hc : (df10001.hasProviderCol && df10001.rows.isEmpty) = false := rfl
  simp only [calculateFraudFlags, hc, Bool.false_eq_true, if_false, fraudFlags_df10001]
  norm_num

lemma winRate_df10001 : winRate df10001 = some 0 := by
  have hne : df10001.rows.isEmpty = false := by
    rw [show df10001.rows = List.replicate 10001 r0 from rfl]
    simp [List.isEmpty_iff]
  have hcount : df10001.rows.countP
      (fun r => r.outcome == "In Favor of Provider/Facility/AA Provider") = 0 := by
    rw [show df10001.rows = List.replicate 10001 r0 from rfl, countP_replicate]
    simp [r0]
  have ho : df10001.hasOutcomeCol = true := rfl
  simp only [winRate, ho, hne, hcount]
  norm_num


/-- A one-row frame with every column present: win rate 100%, and of the
scorer's rules only payer targeting fires (one payer holds 100% of one
dispute). -/
def dfWin : ProviderDF := ⟨[rWin], true, true, true, true, true, true, true⟩

lemma quarterKeys_dfWin_length : (quarterKeys dfWin).length = 1 := by
  rw [quarterKeys_length]
  simp [dfWin, rWin]

lemma fraudFlags_dfWin : fraudFlags dfWin = ["🚩 PAYER TARGETING"] := by
  have h1 : highVolumeFires dfWin = false := rfl
  have h2 : extremePricingFires dfWin = false := by
    simp [extremePricingFires, avgOffer, offerValues, dfWin, rWin]
    norm_num
  have h3 : batchAbuserFires dfWin = false := by
    simp [batchAbuserFires, batchRate, dfWin, rWin, List.countP_cons]
  have h4 : volumeSpikeFires dfWin = false := by
    simp [volumeSpikeFires, quarterKeys_dfWin_length]
  have h5 : multiStateFires dfWin = false := by
    simp [multiStateFires, dfWin, rWin]
  have h6 : payerTargetingFires dfWin = true := by
    simp [payerTargetingFires, topPayerCount, payerCount, dfWin, rWin, List.countP_cons]
    norm_num
  simp only [fraudFlags, h1, h2, h3, h4, h5, h6]
  simp

lemma calculateFraudFlags_dfWin :
    calculateFraudFlags dfWin = some (["🚩 PAYER TARGETING"], 15) := by
  have hc : (dfWin.hasProviderCol && dfWin.rows.isEmpty) = false := rfl
  simp only [calculateFraudFlags, hc, Bool.false_eq_true, if_false, fraudFlags_dfWin]
  norm_num

lemma winRate_dfWin : winRate dfWin = some 100 := by
  simp [winRate, dfWin, rWin, List.countP_cons]

/-- Ten rows, nine of them batched: batch rate exactly 90%. -/
def dfB90 : ProviderDF :=
  ⟨[rB, rB, rB, rB, rB, rB, rB, rB, rB, r0], true, true, true, true, true, true, true⟩

lemma batchRate_dfB90 : batchRate dfB90 = some 90 := by
  simp [batchRate, dfB90, rB, r0, List.countP_cons]
  norm_num

/-- One batched row: batch rate 100%. -/
def dfB100 : ProviderDF := ⟨[rB], true, true, true, true, true, true, true⟩

lemma batchRate_dfB100 : batchRate dfB100 = some 100 := by
  simp [batchRate, dfB100, rB, List.countP_cons]

/-- An empty frame that still has the provider-name column: the scorer's
first line indexes into it and raises. -/
def dfEmptyName : ProviderDF := ⟨[], true, false, false, false, false, false, false⟩

lemma calculateFraudFlags_dfEmptyName : calculateFraudFlags dfEmptyName = none := rfl


/-! ### Extra flag-membership helpers -/

/-- Membership in a trailing guarded singleton block. -/
lemma mem_flagIte0 (b : Bool) (x a : String) :
    (a ∈ (if b then [x] else ([] : List String))) ↔ (b = true ∧ a = x) := by
  cases b <;> simp

/-- Every emitted flag is one of the six rule labels. -/
lemma fraudFlags_labels (df : ProviderDF) (a : String) (h : a ∈ fraudFlags df) :
    a = "🚩 HIGH VOLUME" ∨ a = "🚩 EXTREME PRICING" ∨ a = "🚩 BATCH ABUSER"
    ∨ a = "🚩 VOLUME SPIKE" ∨ a = "🚩 MULTI-STATE OPERATION"
    ∨ a = "🚩 PAYER TARGETING" := by
  simp only [fraudFlags, List.mem_append, mem_flagIte0] at h
  tauto

/-! ### The claims -/

/-- C1: for every provider row-set, the risk score returned by the
file-backed `calculate_fraud_flags` lies in `[0, 100]`, and the
summary-table accumulation of the fraud-alerts tab also stays in
`[0, 100]` (its maximum is `30 + 20 + 15 + 10 = 75`). -/
theorem C1_risk_score_in_range :
    (∀ (df : ProviderDF) (r : List String × Nat),
       calculateFraudFlags df = some r → 0 ≤ r.2 ∧ r.2 ≤ 100)
    ∧ (∀ row : SummaryRow,
       0 ≤ (summaryFraudEval row).2 ∧ (summaryFraudEval row).2 ≤ 100) := by
  constructor
  · intro df r h
    obtain ⟨h1, h2⟩ := calculateFraudFlags_score df r h
    have hle := fraudFlags_length_le df
    omega
  · intro row
    refine ⟨Nat.zero_le _, ?_⟩
    rw [summaryFraudEval_snd]
    split_ifs <;> norm_num

/-- C1 witness: at the one-row frame `dfWin` the scorer returns score 15,
which is within `[0, 100]`. -/
theorem C1_witness :
    calculateFraudFlags dfWin = some (["🚩 PAYER TARGETING"], 15)
    ∧ (0 ≤ ((["🚩 PAYER TARGETING"], 15) : List String × Nat).2
       ∧ ((["🚩 PAYER TARGETING"], 15) : List String × Nat).2 ≤ 100) :=
  ⟨calculateFraudFlags_dfWin,
   C1_risk_score_in_range.1 dfWin _ calculateFraudFlags_dfWin⟩

/-- C2 counterexample: a provider row-set of 10001 disputes that triggers
no rule other than volume.  The file-backed `calculate_fraud_flags`,
cited by the claim, returns a risk score of 15, not 30: it has no
extreme-volume rule, so the claim as stated is false. -/
theorem C2_counterexample :
    10000 < df10001.rows.length
    ∧ extremePricingFires df10001 = false
    ∧ batchAbuserFires df10001 = false
    ∧ volumeSpikeFires df10001 = false
    ∧ multiStateFires df10001 = false
    ∧ payerTargetingFires df10001 = false
    ∧ winRate df10001 = some 0
    ∧ calculateFraudFlags df10001 = some (["🚩 HIGH VOLUME"], 15)
    ∧ (15 : Nat) ≠ 30 := by
  refine ⟨?_, rfl, rfl, rfl, rfl, rfl, winRate_df10001,
    calculateFraudFlags_df10001, by norm_num⟩
  rw [show df10001.rows = List.replicate 10001 r0 from rfl, List.length_replicate]
  norm_num

/-- C2 amended: a provider with more than 10000 disputes and no other
fired rule scores exactly 30 in the summary-table scorer; the file-backed
`calculate_fraud_flags` scores such a provider exactly 15, since its only
volume rule is the `> 1000` high-volume flag at 15 points per flag. -/
theorem C2_amended_scores :
    (∀ row : SummaryRow, 10000 < row.total_disputes →
       row.batch_rate ≤ 90 → row.states_count ≤ 10 → row.win_rate ≤ 95 →
       (summaryFraudEval row).2 = 30)
    ∧ (∀ (df : ProviderDF) (r : List String × Nat), 10000 < df.rows.length →
       extremePricingFires df = false → batchAbuserFires df = false →
       volumeSpikeFires df = false → multiStateFires df = false →
       payerTargetingFires df = false →
       calculateFraudFlags df = some r → r.2 = 15) := by
  constructor
  · intro row hvol hb hs hw
    rw [summaryFraudEval_snd, if_pos hvol, if_neg (not_lt.mpr hb),
      if_neg (not_lt.mpr hs), if_neg (not_lt.mpr hw)]
  · intro df r hvol h2 h3 h4 h5 h6 hcalc
    have hhigh : highVolumeFires df = true := by
      unfold highVolumeFires
      simp only [decide_eq_true_eq]
      omega
    have hflags : fraudFlags df = ["🚩 HIGH VOLUME"] := by
      simp only [fraudFlags, hhigh, h2, h3, h4, h5, h6]
      simp
    obtain ⟨h1, hsc⟩ := calculateFraudFlags_score df r hcalc
    rw [hflags] at hsc
    simpa using hsc

/-- C2 witness: the summary scorer at `(10001, 0, 0, 0)` returns 30, and
the file-backed scorer at `df10001` returns 15. -/
theorem C2_witness :
    (summaryFraudEval ⟨"p", 10001, 0, 0, 0⟩).2 = 30
    ∧ ((["🚩 HIGH VOLUME"], 15) : List String × Nat).2 = 15 :=
  ⟨C2_amended_scores.1 ⟨"p", 10001, 0, 0, 0⟩ (by norm_num) (by norm_num)
      (by norm_num) (by norm_num),
   C2_amended_scores.2 df10001 _
     (by rw [show df10001.rows = List.replicate 10001 r0 from rfl,
           List.length_replicate]; norm_num)
     rfl rfl rfl rfl rfl calculateFraudFlags_df10001⟩

/-- C3 counterexample: the file-backed scorer, cited by the claim, gives a
provider with 10001 records the high-volume flag at 15 points; no
extreme-volume flag worth 30 points exists there. -/
theorem C3_counterexample :
    10000 < df10001.rows.length
    ∧ calculateFraudFlags df10001 = some (["🚩 HIGH VOLUME"], 15)
    ∧ "🚩 EXTREME VOLUME" ∉ fraudFlags df10001
    ∧ (15 : Nat) < 30 := by
  refine ⟨?_, calculateFraudFlags_df10001, ?_, by norm_num⟩
  · rw [show df10001.rows = List.replicate 10001 r0 from rfl, List.length_replicate]
    norm_num
  · rw [fraudFlags_df10001]
    simp

/-- C3 amended: in the summary-table scorers (revisions 2 and 3) a count
above 10000 yields the extreme-volume flag worth 30, a count in
`(1000, 10000]` yields the high-volume flag worth 15, and the two are
mutually exclusive; the file-backed variant has only the high-volume rule
(`> 1000`, one 15-point flag) and never emits an extreme-volume flag, so
there too no provider receives both. -/
theorem C3_amended_volume_rules :
    (∀ row : SummaryRow,
       (("🚩 EXTREME VOLUME" ∈ (summaryFraudEval row).1) ↔ 10000 < row.total_disputes)
       ∧ (("🚩 HIGH VOLUME" ∈ (summaryFraudEval row).1) ↔
            (1000 < row.total_disputes ∧ row.total_disputes ≤ 10000))
       ∧ ¬("🚩 EXTREME VOLUME" ∈ (summaryFraudEval row).1
            ∧ "🚩 HIGH VOLUME" ∈ (summaryFraudEval row).1)
       ∧ (summaryFraudEval row).2 =
           (if 10000 < row.total_disputes then 30
            else if 1000 < row.total_disputes then 15 else 0)
           + (if 90 < row.batch_rate then 20 else 0)
           + (if 10 < row.states_count then 15 else 0)
           + (if 95 < row.win_rate then 10 else 0))
    ∧ (∀ row : SummaryRow,
       (("EXTREME VOLUME" ∈ (summaryFraudEvalV3 row).1) ↔ 10000 < row.total_disputes)
       ∧ (("HIGH VOLUME" ∈ (summaryFraudEvalV3 row).1) ↔
            (1000 < row.total_disputes ∧ row.total_disputes ≤ 10000)))
    ∧ (∀ df : ProviderDF,
       (("🚩 HIGH VOLUME" ∈ fraudFlags df) ↔ 1000 < df.rows.length)
       ∧ "🚩 EXTREME VOLUME" ∉ fraudFlags df) := by
  refine ⟨fun row => ⟨?_, ?_, ?_, summaryFraudEval_snd row⟩, fun row => ⟨?_, ?_⟩,
    fun df => ⟨?_, ?_⟩⟩
  · rw [mem_summaryFraudEval_extremeVolume]
  · rw [mem_summaryFraudEval_highVolume]
    omega
  · rw [mem_summaryFraudEval_extremeVolume, mem_summaryFraudEval_highVolume]
    omega
  · rw [mem_summaryFraudEvalV3_extremeVolume]
  · rw [mem_summaryFraudEvalV3_highVolume]
    omega
  · rw [mem_fraudFlags_highVolume]
    unfold highVolumeFires
    simp
  · intro h
    rcases fraudFlags_labels df _ h with h | h | h | h | h | h <;> simp at h

/-- C3 witness: concrete volume cases for the summary scorers and the
file-backed scorer. -/
theorem C3_witness :
    "🚩 EXTREME VOLUME" ∈ (summaryFraudEval ⟨"p", 10001, 0, 0, 0⟩).1
    ∧ "🚩 HIGH VOLUME" ∈ (summaryFraudEval ⟨"q", 2000, 0, 0, 0⟩).1
    ∧ "HIGH VOLUME" ∈ (summaryFraudEvalV3 ⟨"q", 2000, 0, 0, 0⟩).1
    ∧ "🚩 HIGH VOLUME" ∈ fraudFlags df10001 :=
  ⟨((C3_amended_volume_rules.1 ⟨"p", 10001, 0, 0, 0⟩).1).mpr (by norm_num),
   ((C3_amended_volume_rules.1 ⟨"q", 2000, 0, 0, 0⟩).2.1).mpr ⟨by norm_num, by norm_num⟩,
   ((C3_amended_volume_rules.2.1 ⟨"q", 2000, 0, 0, 0⟩).2).mpr ⟨by norm_num, by norm_num⟩,
   ((C3_amended_volume_rules.2.2 df10001).1).mpr
     (by rw [show df10001.rows = List.replicate 10001 r0 from rfl,
           List.length_replicate]; norm_num)⟩


/-- C4: with the type column present, a batch rate at or below 90 never
yields the batch-abuser label, and a rate above 90 always does — in the
file-backed scorer and in the summary-table scorer alike. -/
theorem C4_batch_abuser_threshold :
    (∀ (df : ProviderDF) (q : ℚ), df.hasTypeCol = true → batchRate df = some q →
       ((q ≤ 90 → "🚩 BATCH ABUSER" ∉ fraudFlags df)
        ∧ (90 < q → "🚩 BATCH ABUSER" ∈ fraudFlags df)))
    ∧ (∀ row : SummaryRow,
       (row.batch_rate ≤ 90 → "🚩 BATCH ABUSER" ∉ (summaryFraudEval row).1)
       ∧ (90 < row.batch_rate → "🚩 BATCH ABUSER" ∈ (summaryFraudEval row).1)) := by
  constructor
  · intro df q hcol hrate
    have hfire : batchAbuserFires df = decide (90 < q) := by
      simp only [batchAbuserFires, hcol, hrate, Bool.true_and]
    constructor
    · intro hle hmem
      rw [mem_fraudFlags_batchAbuser, hfire, decide_eq_true_eq] at hmem
      exact absurd hmem (not_lt.mpr hle)
    · intro hlt
      rw [mem_fraudFlags_batchAbuser, hfire, decide_eq_true_eq]
      exact hlt
  · intro row
    constructor
    · intro hle hmem
      rw [mem_summaryFraudEval_batchAbuser] at hmem
      exact absurd hmem (not_lt.mpr hle)
    · intro hlt
      exact (mem_summaryFraudEval_batchAbuser row).mpr hlt

/-- C4 witness: a 90% batch rate (nine of ten rows) yields no label, a
100% batch rate yields the label; likewise in the summary scorer. -/
theorem C4_witness :
    "🚩 BATCH ABUSER" ∉ fraudFlags dfB90
    ∧ "🚩 BATCH ABUSER" ∈ fraudFlags dfB100
    ∧ "🚩 BATCH ABUSER" ∈ (summaryFraudEval ⟨"p", 0, 100, 0, 0⟩).1 :=
  ⟨(C4_batch_abuser_threshold.1 dfB90 90 rfl batchRate_dfB90).1 (by norm_num),
   (C4_batch_abuser_threshold.1 dfB100 100 rfl batchRate_dfB100).2 (by norm_num),
   (C4_batch_abuser_threshold.2 ⟨"p", 0, 100, 0, 0⟩).2 (by norm_num)⟩

/-- C5 counterexample: a provider with a 100% win rate whose file-backed
score contains no abnormal-win-rate flag and no 10 win-rate points:
`calculate_fraud_flags` has no win-rate rule, so the claim's "every
variant" is false. -/
theorem C5_counterexample :
    winRate dfWin = some 100
    ∧ (95 : ℚ) < 100
    ∧ calculateFraudFlags dfWin = some (["🚩 PAYER TARGETING"], 15)
    ∧ "🚩 ABNORMAL WIN RATE" ∉ (["🚩 PAYER TARGETING"] : List String) :=
  ⟨winRate_dfWin, by norm_num, calculateFraudFlags_dfWin, by simp⟩

/-- C5 amended: in the summary-table scorer a win rate above 95 emits the
abnormal-win-rate flag and contributes exactly 10 points; the file-backed
`calculate_fraud_flags` has no win-rate rule and never emits that flag. -/
theorem C5_amended_win_rate :
    (∀ row : SummaryRow, 95 < row.win_rate →
       ("🚩 ABNORMAL WIN RATE" ∈ (summaryFraudEval row).1
        ∧ (summaryFraudEval row).2 =
            (if 10000 < row.total_disputes then 30
             else if 1000 < row.total_disputes then 15 else 0)
            + (if 90 < row.batch_rate then 20 else 0)
            + (if 10 < row.states_count then 15 else 0) + 10))
    ∧ (∀ df : ProviderDF, "🚩 ABNORMAL WIN RATE" ∉ fraudFlags df) := by
  constructor
  · intro row h
    refine ⟨(mem_summaryFraudEval_abnormalWin row).mpr h, ?_⟩
    rw [summaryFraudEval_snd, if_pos h]
  · intro df h
    rcases fraudFlags_labels df _ h with h | h | h | h | h | h <;> simp at h

/-- C5 witness: a summary row with win rate 100 gets the flag and the 10
points; the file-backed scorer never emits the flag at `dfWin`. -/
theorem C5_witness :
    "🚩 ABNORMAL WIN RATE" ∈ (summaryFraudEval ⟨"p", 0, 0, 100, 0⟩).1
    ∧ "🚩 ABNORMAL WIN RATE" ∉ fraudFlags dfWin :=
  ⟨(C5_amended_win_rate.1 ⟨"p", 0, 0, 100, 0⟩ (by norm_num)).1,
   C5_amended_win_rate.2 dfWin⟩

/-- C6 counterexample: an empty row-set whose provider-name column is
present but whose offer column (among others) is absent.  The claim
promises the scorer still returns without raising, but the source indexes
`iloc[0]` on the name column before any rule and raises `IndexError`. -/
theorem C6_counterexample :
    dfEmptyName.hasOfferCol = false
    ∧ dfEmptyName.hasProviderCol = true
    ∧ calculateFraudFlags dfEmptyName = none :=
  ⟨rfl, rfl, rfl⟩

/-- C6 amended: on any row-set that is nonempty or lacks the
provider-name column, the scorer returns a flag list and score without
raising, every rule whose column is absent is skipped (its flag is not
emitted, so its 15 points are not added), and the score is
`min(100, 15 * flags)` over the emitted flags only. -/
theorem C6_amended_absent_columns :
    ∀ df : ProviderDF, (df.rows ≠ [] ∨ df.hasProviderCol = false) →
      (calculateFraudFlags df).isSome = true
      ∧ (∀ r, calculateFraudFlags df = some r →
           r.1 = fraudFlags df ∧ r.2 = min 100 (r.1.length * 15))
      ∧ (df.hasOfferCol = false → "🚩 EXTREME PRICING" ∉ fraudFlags df)
      ∧ (df.hasTypeCol = false → "🚩 BATCH ABUSER" ∉ fraudFlags df)
      ∧ (df.hasQuarterCol = false → "🚩 VOLUME SPIKE" ∉ fraudFlags df)
      ∧ (df.hasLocationCol = false → "🚩 MULTI-STATE OPERATION" ∉ fraudFlags df)
      ∧ (df.hasPayerCol = false → "🚩 PAYER TARGETING" ∉ fraudFlags df) := by
  intro df h
  have hcond : (df.hasProviderCol && df.rows.isEmpty) = false := by
    rcases h with h | h
    · simp [List.isEmpty_iff, h]
    · simp [h]
  refine ⟨?_, ?_, ?_, ?_, ?_, ?_, ?_⟩
  · simp [calculateFraudFlags, hcond]
  · intro r hr
    obtain ⟨h1, h2⟩ := calculateFraudFlags_score df r hr
    have hle := fraudFlags_length_le df
    have hlen := congrArg List.length h1
    exact ⟨h1, by omega⟩
  · intro hcol hmem
    rw [mem_fraudFlags_extremePricing] at hmem
    simp [extremePricingFires, hcol] at hmem
  · intro hcol hmem
    rw [mem_fraudFlags_batchAbuser] at hmem
    simp [batchAbuserFires, hcol] at hmem
  · intro hcol hmem
    rw [mem_fraudFlags_volumeSpike] at hmem
    simp [volumeSpikeFires, hcol] at hmem
  · intro hcol hmem
    rw [mem_fraudFlags_multiState] at hmem
    simp [multiStateFires, hcol] at hmem
  · intro hcol hmem
    rw [mem_fraudFlags_payerTargeting] at hmem
    simp [payerTargetingFires, hcol] at hmem

/-- C6 witness: `df10001` lacks the offer column, is nonempty, the scorer
returns, and no extreme-pricing flag appears. -/
theorem C6_witness :
    (calculateFraudFlags df10001).isSome = true
    ∧ "🚩 EXTREME PRICING" ∉ fraudFlags df10001 :=
  have h : df10001.rows ≠ [] := by
    intro heq
    have := congrArg List.length heq
    rw [show df10001.rows = List.replicate 10001 r0 from rfl] at this
    rw [List.length_replicate] at this
    simp at this
  ⟨(C6_amended_absent_columns df10001 (Or.inl h)).1,
   (C6_amended_absent_columns df10001 (Or.inl h)).2.2.1 rfl⟩

/-- C10: the file-backed score is always exactly 15 per emitted flag, at
most six flags can fire, so the score is a multiple of 15 bounded by 90,
the `min(100, ...)` cap never binds (the score equals the uncapped
product), and the `45`-point alert threshold of the fraud-alerts tab is
reached exactly when at least three flags fired. -/
theorem C10_score_equals_15_per_flag :
    ∀ (df : ProviderDF) (r : List String × Nat), calculateFraudFlags df = some r →
      r.2 = 15 * r.1.length ∧ r.1.length ≤ 6 ∧ r.2 ≤ 90 ∧ 15 ∣ r.2
      ∧ (45 ≤ r.2 ↔ 3 ≤ r.1.length) := by
  intro df r h
  obtain ⟨h1, h2⟩ := calculateFraudFlags_score df r h
  have hle := fraudFlags_length_le df
  have hlen := congrArg List.length h1
  refine ⟨by omega, by omega, by omega, ⟨r.1.length, by omega⟩, by omega⟩

/-- C10 witness: at `dfWin` one flag fired and the score is `15 * 1`. -/
theorem C10_witness :
    calculateFraudFlags dfWin = some (["🚩 PAYER TARGETING"], 15)
    ∧ ((["🚩 PAYER TARGETING"], 15) : List String × Nat).2
        = 15 * ((["🚩 PAYER TARGETING"], 15) : List String × Nat).1.length :=
  ⟨calculateFraudFlags_dfWin,
   (C10_score_equals_15_per_flag dfWin _ calculateFraudFlags_dfWin).1⟩


/-- C7: each paginated query function returns exactly as many rows as the
single filtered fetch it paginates, for every backing table and filter
value — in particular both when the match count is an exact multiple of
the 1000-row page (full page then empty page) and when it is not (final
short page). -/
theorem C7_pagination_row_count :
    ∀ (table : List DisputeRec) (pn st sp : String),
      (query_by_provider table pn).length
          = (table.filter (fun r => r.provider_name == pn)).length
      ∧ (query_by_state table st).length
          = (table.filter (fun r => r.state == st)).length
      ∧ (query_by_specialty table sp).length
          = (table.filter (fun r => r.specialty == sp)).length := by
  intro table pn st sp
  refine ⟨?_, ?_, ?_⟩ <;>
    simp [query_by_provider, query_by_state, query_by_specialty, fetchAll_eq_drop]

/-- C7 witness: a concrete one-row table queried by provider name. -/
theorem C7_witness :
    (query_by_provider [⟨"Prov A", "NY", "EM"⟩] "Prov A").length
      = (List.filter (fun r => r.provider_name == "Prov A")
          [(⟨"Prov A", "NY", "EM"⟩ : DisputeRec)]).length :=
  (C7_pagination_row_count [⟨"Prov A", "NY", "EM"⟩] "Prov A" "NY" "EM").1

/-- C8: the fetch loop terminates for every response sequence that
eventually serves a short or empty page; against a fixed backing list it
makes `length / 1000 + 1 ≤ ceil(length / 1000) + 1` round trips, the
requested offsets advance by exactly the window size each iteration
(`0, 1000, 2000, …`), and every received page is appended, so the
accumulator ends as the whole result. -/
theorem C8_pagination_loop :
    (∀ resp : Nat → List DisputeRec,
       (∃ k, (resp (1000 * k)).length < 1000) →
       ∃ fuel, (fetchFuel resp fuel 0 []).isSome = true)
    ∧ (∀ matching : List DisputeRec,
       ((fetchTrace matching 0).2).length ≤ (matching.length + 999) / 1000 + 1
       ∧ (fetchTrace matching 0).2 =
           (List.range ((fetchTrace matching 0).2).length).map (fun i => 1000 * i)
       ∧ (fetchTrace matching 0).1 = matching) := by
  constructor
  · rintro resp ⟨k, hk⟩
    exact ⟨k + 1, fetchFuel_isSome resp k 0 [] (by simpa using hk)⟩
  · intro matching
    have hsnd := fetchTrace_snd matching 0
    rw [Nat.sub_zero] at hsnd
    have hlen : ((fetchTrace matching 0).2).length = matching.length / 1000 + 1 := by
      rw [hsnd]
      simp
    refine ⟨?_, ?_, ?_⟩
    · rw [hlen]
      omega
    · rw [hsnd]
      simp only [List.length_map, List.length_range]
      refine List.map_congr_left fun i _ => ?_
      omega
    · rw [fetchTrace_fst matching 0, List.drop_zero]

/-- C8 witness: a remote that serves an empty first page terminates
within one round trip of fuel. -/
theorem C8_witness :
    ∃ fuel, (fetchFuel (fun _ => ([] : List DisputeRec)) fuel 0 []).isSome = true :=
  C8_pagination_loop.1 (fun _ => []) ⟨0, by simp⟩

/-- C9 counterexample: a remote failure on the very first page of the
paginated query loop escapes as the raised error — it is not converted
into an empty result, because `query_by_provider` has no exception
handler. -/
theorem C9_counterexample :
    queryLoopE (fun _ => Except.error RemoteError.network) 5 0 ([] : List DisputeRec)
      = some (Except.error RemoteError.network)
    ∧ some (Except.error RemoteError.network)
        ≠ some (Except.ok ([] : List DisputeRec)) := by
  exact ⟨rfl, by simp⟩

/-- C9 amended: the summary loaders catch every remote failure and return
an empty frame (or `None` for the overview), and return empty when no
client is configured; the paginated query functions instead propagate any
remote failure to their caller unchanged. -/
theorem C9_amended_error_handling :
    (∀ e : RemoteError, loadSummaries (some ()) (Except.error e) = ([] : List SummaryRow))
    ∧ (∀ result : Except RemoteError (List SummaryRow), loadSummaries none result = [])
    ∧ (∀ e : RemoteError, load_overview (some ()) (Except.error e) = (none : Option SummaryRow))
    ∧ (∀ (resp : Nat → Except RemoteError (List DisputeRec)) (fuel offset : Nat)
         (acc : List DisputeRec) (e : RemoteError),
       resp offset = Except.error e →
       queryLoopE resp (fuel + 1) offset acc = some (Except.error e)) := by
  refine ⟨fun e => rfl, fun result => rfl, fun e => rfl, ?_⟩
  intro resp fuel offset acc e h
  simp [queryLoopE, h]

/-- C9 witness: a timeout in a loader yields an empty frame; the same
timeout in the query loop propagates as the error. -/
theorem C9_witness :
    loadSummaries (some ()) (Except.error RemoteError.timeout) = ([] : List SummaryRow)
    ∧ queryLoopE (fun _ => Except.error RemoteError.timeout) 1 0 ([] : List DisputeRec)
        = some (Except.error RemoteError.timeout) :=
  ⟨C9_amended_error_handling.1 RemoteError.timeout,
   C9_amended_error_handling.2.2.2 (fun _ => Except.error RemoteError.timeout)
     0 0 [] RemoteError.timeout rfl⟩

end IDR
